import Mathlib

/-!
Shallow embedding of the gnomegg moderation backend core: the domain records
(`Ban`, `Mute`, `Role`, `RoleEntry` from `src/spec/{ban,mute,user}.rs`), the
cache tier (redis), the persistent tier (MySQL via diesel) and the `Hybrid`
coordinator from `src/ws_http_server/modules/{bans,mutes,roles,name_resolver}.rs`.

Modelling conventions:
* `u64` values become `Nat`; the two places the source casts a `u64` duration
  into an `i64` (`d as i64` in `Ban::active_for`, `d.try_into().or_default()`
  in `Mute::active`) are modelled explicitly by `u64AsI64` / `u64TryIntoI64OrDefault`.
* Wall-clock instants (`chrono` timestamps) become `Int` nanoseconds since an
  arbitrary epoch; every operation that calls `Utc::now()` in the source takes
  the sampled instant as an explicit `now` argument.
* The redis connection is modelled as `RedisState`: a scalar key/value store
  over the namespaced keys the source uses (`banned::`, `banned_addr::`,
  `muted::`, `user_id::`, `username::`), a set store for `roles::` keys, and a
  fault schedule (`faults`/`tick`) injecting transport errors, one tick per
  issued command.  Serialized JSON values are modelled as the typed `Payload`
  sum (serde round-trips derive-serialized records exactly; a value of the
  wrong shape fails to decode, which models a corrupt entry).
* Redis replies are modelled by `Resp`, and the redis-rs reply conversions the
  source requests (`query::<Option<String>>`, `query::<bool>`, `query::<()>`,
  ...) by the `respTo*` functions: a `+OK` status reply is not a bulk payload
  and fails to convert to an optional byte payload, exactly as redis-rs fails
  `SET`'s reply for `Option<Vec<u8>>`.
* The MySQL database is modelled as `MysqlState`: lists of rows for the
  `bans`, `mutes`, `roles`, `users` and `ids` tables (primary keys as declared
  in `src/spec/schema.rs`: `user_id`, `user_id`, `user_id`, `id`, `username`),
  plus the same kind of fault schedule. `first` on an empty result set yields
  diesel's `NotFound`, `insert_into` on a duplicate primary key yields a
  unique-violation database error, `replace_into` deletes-then-inserts.
-/

/-- Error taxonomy of `ProviderError` (`modules/mod.rs` and the per-module
copies): redis, serde and diesel errors plus `MissingArgument`. -/
inductive RedisErrorKind where
  | transport
  | typeError
deriving DecidableEq, Repr

/-- The diesel error cases the source distinguishes: `NotFound`, a duplicate
primary-key database error, and everything else (transport etc.). -/
inductive DieselErrorKind where
  | notFound
  | uniqueViolation
  | transport
deriving DecidableEq, Repr

/-- `ProviderError` from `modules/mod.rs`. -/
inductive ProviderError where
  | redisError (e : RedisErrorKind)
  | serdeError
  | dieselError (e : DieselErrorKind)
  | missingArgument (arg : String)
deriving DecidableEq, Repr

/-- `i64::MAX`. -/
def i64Max : Nat := 2 ^ 63 - 1

/-- `d as i64` on a `u64`: two's-complement reinterpretation
(used by `Ban::active_for`'s `Duration::nanoseconds(d as i64)`). -/
def u64AsI64 (d : Nat) : Int :=
  if d % 2 ^ 64 < 2 ^ 63 then ((d % 2 ^ 64 : Nat) : Int)
  else ((d % 2 ^ 64 : Nat) : Int) - 2 ^ 64

/-- `d.try_into().or_default()` on a `u64` converted to `i64` (used by
`Mute::active`): the conversion fails exactly when `d > i64::MAX`, in which
case the default value `0` is used. -/
def u64TryIntoI64OrDefault (d : Nat) : Int :=
  if d ≤ i64Max then (d : Int) else 0

/-- `Ban` from `src/spec/ban.rs` (the `NewBan` write-side struct has the same
four fields and serializes identically, so one record models both). -/
structure Ban where
  user_id : Nat
  duration : Option Nat
  initiated_at : Int
  ip : Option String
deriving DecidableEq, Repr

/-- `Ban::active_for`: `duration.map(|d| Duration::nanoseconds(d as i64))`. -/
def Ban.active_for (b : Ban) : Option Int :=
  b.duration.map u64AsI64

/-- `Ban::active`: `active_for().map_or(true, |d| Utc::now() < initiated_at + d)`. -/
def Ban.active (b : Ban) (now : Int) : Bool :=
  match b.active_for with
  | none => true
  | some d => decide (now < b.initiated_at + d)

/-- `Ban::concerns`. -/
def Ban.concerns (b : Ban) : Nat := b.user_id

/-- `Ban::address`. -/
def Ban.address (b : Ban) : Option String := b.ip

/-- `Mute` from `src/spec/mute.rs`. -/
structure Mute where
  user_id : Nat
  duration : Nat
  initiated_at : Int
deriving DecidableEq, Repr

/-- `Mute::active`:
`Utc::now() < initiated_at + Duration::nanoseconds(duration.try_into().or_default())`. -/
def Mute.active (m : Mute) (now : Int) : Bool :=
  decide (now < m.initiated_at + u64TryIntoI64OrDefault m.duration)

/-- `Mute::concerns` (as used by `modules/mutes.rs`): the muted user's ID. -/
def Mute.concerns (m : Mute) : Nat := m.user_id

/-- `Role` from `src/spec/user.rs`. -/
inductive Role where
  | administrator
  | moderator
  | vip
  | «protected»
  | subscriber
  | bot
deriving DecidableEq, Repr

/-- `Role::to_str`. -/
def Role.to_str : Role → String
  | .administrator => "administrator"
  | .moderator => "moderator"
  | .vip => "vip"
  | .«protected» => "protected"
  | .subscriber => "subscriber"
  | .bot => "bot"

/-- `Role::from_str` (`impl FromStr for Role`); the error case
`ParseRoleError::NoMatchingRole` is modelled as `none`. -/
def Role.from_str (s : String) : Option Role :=
  if s = "administrator" then some .administrator
  else if s = "moderator" then some .moderator
  else if s = "vip" then some .vip
  else if s = "protected" then some .«protected»
  else if s = "subscriber" then some .subscriber
  else if s = "bot" then some .bot
  else none

/-- `RoleEntry` from `src/spec/user.rs`: one row of the `roles` table
(nullable boolean column per role; `id` is unused by the `roles` table of
`src/spec/schema.rs` but kept to mirror the struct). -/
structure RoleEntry where
  id : Nat
  user_id : Nat
  administrator : Option Bool
  moderator : Option Bool
  vip : Option Bool
  «protected» : Option Bool
  subscriber : Option Bool
  bot : Option Bool
deriving DecidableEq, Repr

/-- `RoleEntry::default()` (derived `Default`). -/
def RoleEntry.default : RoleEntry :=
  ⟨0, 0, none, none, none, none, none, none⟩

/-- `RoleEntry::has_role`: the named nullable column, `unwrap_or(false)`. -/
def RoleEntry.has_role (e : RoleEntry) (r : Role) : Bool :=
  match r with
  | .administrator => e.administrator.getD false
  | .moderator => e.moderator.getD false
  | .vip => e.vip.getD false
  | .«protected» => e.«protected».getD false
  | .subscriber => e.subscriber.getD false
  | .bot => e.bot.getD false

/-- `impl From<&RoleEntry> for Vec<Role>`: collect the roles whose column is
`Some(true)`, in declaration order. -/
def RoleEntry.toRoles (e : RoleEntry) : List Role :=
  (if e.administrator.getD false then [Role.administrator] else []) ++
  (if e.moderator.getD false then [Role.moderator] else []) ++
  (if e.vip.getD false then [Role.vip] else []) ++
  (if e.«protected».getD false then [Role.«protected»] else []) ++
  (if e.subscriber.getD false then [Role.subscriber] else []) ++
  (if e.bot.getD false then [Role.bot] else [])

/-- A value stored under a scalar redis key. Serialized JSON records are
modelled as the typed payloads `ban`/`mute` (serde round-trips them exactly);
the name-resolver keys hold an integer or a plain string. -/
inductive Payload where
  | ban (b : Ban)
  | mute (m : Mute)
  | nat (n : Nat)
  | str (s : String)
deriving DecidableEq, Repr

/-- A redis reply: nil, a bulk payload, the `+OK` status, or an integer. -/
inductive Resp where
  | nil
  | bulk (p : Payload)
  | okay
  | int (n : Int)
  | multi (ss : List String)
deriving DecidableEq, Repr

/-- The scalar key namespaces the source uses (`format!("banned::{}", id)`
and friends); the `roles::<id>` set keys live in a separate set store. -/
inductive RKey where
  | banned (user_id : Nat)
  | bannedAddr (ip : String)
  | muted (user_id : Nat)
  | userIdKey (username : String)
  | usernameKey (user_id : Nat)
deriving DecidableEq, Repr

/-- The redis connection: scalar keys, role sets, and a fault schedule.
Command number `tick` fails with a transport error iff `faults tick`; each
issued command consumes one tick. -/
structure RedisState where
  faults : Nat → Bool
  tick : Nat
  kv : RKey → Option Payload
  roleSets : Nat → List String

/-- Advance the fault clock by one command. -/
def RedisState.step (st : RedisState) : RedisState :=
  { st with tick := st.tick + 1 }

/-- Does the next issued command hit a transport fault? -/
def RedisState.failNow (st : RedisState) : Bool :=
  st.faults st.tick

/-- `GET key`. -/
def rGet (st : RedisState) (k : RKey) : Except ProviderError Resp × RedisState :=
  if st.failNow then (.error (.redisError .transport), st.step)
  else
    (match st.kv k with
     | none => .ok .nil
     | some p => .ok (.bulk p), st.step)

/-- `SET key value` (replies `+OK`). -/
def rSet (st : RedisState) (k : RKey) (v : Payload) :
    Except ProviderError Resp × RedisState :=
  if st.failNow then (.error (.redisError .transport), st.step)
  else
    (.ok .okay, { st.step with kv := fun k2 => if k2 = k then some v else st.kv k2 })

/-- `GETSET key value`: atomically swap, replying with the previous value. -/
def rGetset (st : RedisState) (k : RKey) (v : Payload) :
    Except ProviderError Resp × RedisState :=
  if st.failNow then (.error (.redisError .transport), st.step)
  else
    (match st.kv k with
     | none => .ok .nil
     | some p => .ok (.bulk p),
     { st.step with kv := fun k2 => if k2 = k then some v else st.kv k2 })

/-- `DEL key` on a scalar key (replies with the number of keys removed). -/
def rDel (st : RedisState) (k : RKey) : Except ProviderError Resp × RedisState :=
  if st.failNow then (.error (.redisError .transport), st.step)
  else
    (.ok (.int (if (st.kv k).isSome then 1 else 0)),
     { st.step with kv := fun k2 => if k2 = k then none else st.kv k2 })

/-- `MSET k1 v1 k2 v2`. -/
def rMset (st : RedisState) (k1 : RKey) (v1 : Payload) (k2 : RKey) (v2 : Payload) :
    Except ProviderError Resp × RedisState :=
  if st.failNow then (.error (.redisError .transport), st.step)
  else
    (.ok .okay,
     { st.step with
        kv := fun k => if k = k2 then some v2 else if k = k1 then some v1 else st.kv k })

/-- Add members to a set, keeping insertion order and dropping duplicates. -/
def setAdd (cur : List String) (members : List String) : List String :=
  members.foldl (fun s m => if m ∈ s then s else s ++ [m]) cur

/-- `SADD roles::<id> members...`. -/
def rSadd (st : RedisState) (uid : Nat) (members : List String) :
    Except ProviderError Resp × RedisState :=
  if st.failNow then (.error (.redisError .transport), st.step)
  else
    (.ok (.int ((setAdd (st.roleSets uid) members).length - (st.roleSets uid).length)),
     { st.step with
        roleSets := fun u => if u = uid then setAdd (st.roleSets uid) members else st.roleSets u })

/-- `SREM roles::<id> member`. -/
def rSrem (st : RedisState) (uid : Nat) (m : String) :
    Except ProviderError Resp × RedisState :=
  if st.failNow then (.error (.redisError .transport), st.step)
  else
    (.ok (.int (if m ∈ st.roleSets uid then 1 else 0)),
     { st.step with
        roleSets := fun u => if u = uid then (st.roleSets uid).filter (· ≠ m) else st.roleSets u })

/-- `SISMEMBER roles::<id> member`. -/
def rSismember (st : RedisState) (uid : Nat) (m : String) :
    Except ProviderError Resp × RedisState :=
  if st.failNow then (.error (.redisError .transport), st.step)
  else (.ok (.int (if m ∈ st.roleSets uid then 1 else 0)), st.step)

/-- `SMEMBERS roles::<id>`. -/
def rSmembers (st : RedisState) (uid : Nat) : Except ProviderError Resp × RedisState :=
  if st.failNow then (.error (.redisError .transport), st.step)
  else (.ok (.multi (st.roleSets uid)), st.step)

/-- `DEL roles::<id>` (the role-set key). -/
def rDelRoles (st : RedisState) (uid : Nat) : Except ProviderError Resp × RedisState :=
  if st.failNow then (.error (.redisError .transport), st.step)
  else
    (.ok (.int (if st.roleSets uid = [] then 0 else 1)),
     { st.step with roleSets := fun u => if u = uid then [] else st.roleSets u })

/-- redis-rs conversion for `query::<Option<String>>` / `query::<Option<Vec<u8>>>`
(an optional byte payload): nil is `None`, a bulk payload is `Some`, and any
other reply (a `+OK` status, an integer) is a type error. -/
def respToOptPayload : Resp → Except ProviderError (Option Payload)
  | .nil => .ok none
  | .bulk p => .ok (some p)
  | _ => .error (.redisError .typeError)

/-- redis-rs conversion for `query::<bool>`: integer replies test nonzero,
nil is `false`, `+OK` is `true`; bulk payloads of the shapes our commands
produce are not requested as booleans. -/
def respToBool : Resp → Except ProviderError Bool
  | .int n => .ok (decide (n ≠ 0))
  | .nil => .ok false
  | .okay => .ok true
  | _ => .error (.redisError .typeError)

/-- redis-rs conversion for `query::<()>`: always succeeds. -/
def respToUnit : Resp → Except ProviderError Unit
  | _ => .ok ()

/-- redis-rs conversion for `query::<Vec<String>>` of `SMEMBERS`. -/
def respToStrings : Resp → Except ProviderError (List String)
  | .multi ss => .ok ss
  | _ => .error (.redisError .typeError)

/-- redis-rs conversion for `query::<Option<u64>>` of `GET user_id::<name>`. -/
def respToOptNat : Resp → Except ProviderError (Option Nat)
  | .nil => .ok none
  | .bulk (.nat n) => .ok (some n)
  | _ => .error (.redisError .typeError)

/-- redis-rs conversion for `query::<Option<String>>` of `GET username::<id>`
(the stored value is a plain string written by `MSET`). -/
def respToOptStr : Resp → Except ProviderError (Option String)
  | .nil => .ok none
  | .bulk (.str s) => .ok (some s)
  | .bulk (.nat n) => .ok (some (toString n))
  | _ => .error (.redisError .typeError)

/-- `serde_json::from_slice::<Ban>` on a stored payload. -/
def payloadToBan : Payload → Except ProviderError Ban
  | .ban b => .ok b
  | _ => .error .serdeError

/-- `serde_json::from_slice::<Mute>` on a stored payload. -/
def payloadToMute : Payload → Except ProviderError Mute
  | .mute m => .ok m
  | _ => .error .serdeError

/-- A row of the `users` table restricted to the columns the core touches:
the primary key `id` and the nullable `username` column
(`users (id) { id, username -> Nullable<Varchar>, ... }` in `src/spec/schema.rs`). -/
structure UserRow where
  id : Nat
  username : Option String
deriving DecidableEq, Repr

/-- A row of the `ids` table (`ids (username) { id, username, user_id }`);
the `id` nonce is irrelevant to the operations modelled here. -/
structure IdRow where
  username : String
  user_id : Nat
deriving DecidableEq, Repr

/-- The MySQL database: one list of rows per table, plus a fault schedule
(command number `tick` fails with a transport-level diesel error iff
`faults tick`; each executed statement consumes one tick). -/
structure MysqlState where
  faults : Nat → Bool
  tick : Nat
  bans : List Ban
  mutes : List Mute
  roles : List RoleEntry
  users : List UserRow
  ids : List IdRow

/-- Advance the fault clock by one statement. -/
def MysqlState.step (st : MysqlState) : MysqlState :=
  { st with tick := st.tick + 1 }

/-- Does the next executed statement hit a fault? -/
def MysqlState.failNow (st : MysqlState) : Bool :=
  st.faults st.tick

/-- `bans.find(user_id).first::<Ban>`: the first row with the primary key,
or diesel's `NotFound`. -/
def qFirstBanById (st : MysqlState) (uid : Nat) : Except ProviderError Ban × MysqlState :=
  if st.failNow then (.error (.dieselError .transport), st.step)
  else
    (match st.bans.find? (fun b => b.user_id = uid) with
     | some b => .ok b
     | none => .error (.dieselError .notFound), st.step)

/-- `bans.filter(ip.eq(address)).first::<Ban>`. -/
def qFirstBanByIp (st : MysqlState) (address : String) :
    Except ProviderError Ban × MysqlState :=
  if st.failNow then (.error (.dieselError .transport), st.step)
  else
    (match st.bans.find? (fun b => b.ip = some address) with
     | some b => .ok b
     | none => .error (.dieselError .notFound), st.step)

/-- `diesel::replace_into(bans::table).values(ban).execute`: delete any row
with the same primary key, then insert. -/
def qReplaceIntoBans (st : MysqlState) (ban : Ban) : Except ProviderError Nat × MysqlState :=
  if st.failNow then (.error (.dieselError .transport), st.step)
  else
    (.ok 1, { st.step with bans := st.bans.filter (fun b => b.user_id ≠ ban.user_id) ++ [ban] })

/-- `diesel::delete(bans.find(user_id)).execute`. -/
def qDeleteBan (st : MysqlState) (uid : Nat) : Except ProviderError Nat × MysqlState :=
  if st.failNow then (.error (.dieselError .transport), st.step)
  else
    (.ok (st.bans.countP (fun b => b.user_id = uid)),
     { st.step with bans := st.bans.filter (fun b => b.user_id ≠ uid) })

/-- `mutes.find(user_id).first::<Mute>`. -/
def qFirstMuteById (st : MysqlState) (uid : Nat) : Except ProviderError Mute × MysqlState :=
  if st.failNow then (.error (.dieselError .transport), st.step)
  else
    (match st.mutes.find? (fun m => m.user_id = uid) with
     | some m => .ok m
     | none => .error (.dieselError .notFound), st.step)

/-- `diesel::insert_into(mutes::table).values(mute).execute`: a plain insert,
which MySQL rejects with a duplicate-key error when a row with the same
primary key (`user_id`) already exists. -/
def qInsertIntoMutes (st : MysqlState) (mute : Mute) : Except ProviderError Nat × MysqlState :=
  if st.failNow then (.error (.dieselError .transport), st.step)
  else if st.mutes.any (fun m => m.user_id = mute.user_id) then
    (.error (.dieselError .uniqueViolation), st.step)
  else
    (.ok 1, { st.step with mutes := st.mutes ++ [mute] })

/-- `diesel::delete(mutes.find(user_id)).execute`. -/
def qDeleteMute (st : MysqlState) (uid : Nat) : Except ProviderError Nat × MysqlState :=
  if st.failNow then (.error (.dieselError .transport), st.step)
  else
    (.ok (st.mutes.countP (fun m => m.user_id = uid)),
     { st.step with mutes := st.mutes.filter (fun m => m.user_id ≠ uid) })

/-- `roles.find(user_id).first::<RoleEntry>` (the `roles` table of
`src/spec/schema.rs` has primary key `user_id`). -/
def qFirstRoleEntry (st : MysqlState) (uid : Nat) :
    Except ProviderError RoleEntry × MysqlState :=
  if st.failNow then (.error (.dieselError .transport), st.step)
  else
    (match st.roles.find? (fun e => e.user_id = uid) with
     | some e => .ok e
     | none => .error (.dieselError .notFound), st.step)

/-- Set the one nullable column named by `role` on a role row. -/
def RoleEntry.setColumn (e : RoleEntry) (role : Role) (v : Bool) : RoleEntry :=
  match role with
  | .administrator => { e with administrator := some v }
  | .moderator => { e with moderator := some v }
  | .vip => { e with vip := some v }
  | .«protected» => { e with «protected» := some v }
  | .subscriber => { e with subscriber := some v }
  | .bot => { e with bot := some v }

/-- A fresh `roles` row holding exactly the named flags
(`INSERT INTO roles(user_id, cols...) VALUES(uid, v...)`: the unnamed role
columns are left NULL). -/
def newRoleRow (uid : Nat) (cols : List Role) (v : Bool) : RoleEntry :=
  cols.foldl (fun e r => e.setColumn r v) { RoleEntry.default with user_id := uid }

/-- `Role::construct_give_role_statement(user_id, has_role).execute`, and its
multi-column variant built inline by `Persistent::give_roles`:
`IF EXISTS (SELECT * FROM roles WHERE user_id = ?) UPDATE roles SET col = v ...
WHERE user_id = ? ELSE INSERT INTO roles(user_id, col...) VALUES(?, v...) END`. -/
def qGiveRolesStatement (st : MysqlState) (uid : Nat) (cols : List Role) (v : Bool) :
    Except ProviderError Nat × MysqlState :=
  if st.failNow then (.error (.dieselError .transport), st.step)
  else if st.roles.any (fun e => e.user_id = uid) then
    (.ok 1,
     { st.step with
        roles := st.roles.map (fun e =>
          if e.user_id = uid then cols.foldl (fun e2 r => e2.setColumn r v) e else e) })
  else
    (.ok 1, { st.step with roles := st.roles ++ [newRoleRow uid cols v] })

/-- `diesel::delete(roles::table.find(user_id)).execute`. -/
def qDeleteRoleRow (st : MysqlState) (uid : Nat) : Except ProviderError Nat × MysqlState :=
  if st.failNow then (.error (.dieselError .transport), st.step)
  else
    (.ok (st.roles.countP (fun e => e.user_id = uid)),
     { st.step with roles := st.roles.filter (fun e => e.user_id ≠ uid) })

/-- `users.find(user_id).select(username).first::<Option<String>>`: the
nullable `username` column of the row with primary key `user_id`, or diesel's
`NotFound` when no such row exists. -/
def qFirstUsername (st : MysqlState) (uid : Nat) :
    Except ProviderError (Option String) × MysqlState :=
  if st.failNow then (.error (.dieselError .transport), st.step)
  else
    (match st.users.find? (fun u => u.id = uid) with
     | some u => .ok u.username
     | none => .error (.dieselError .notFound), st.step)

/-- `ids.find(username).select(user_id).first::<u64>`. -/
def qFirstUserId (st : MysqlState) (username : String) :
    Except ProviderError Nat × MysqlState :=
  if st.failNow then (.error (.dieselError .transport), st.step)
  else
    (match st.ids.find? (fun r => r.username = username) with
     | some r => .ok r.user_id
     | none => .error (.dieselError .notFound), st.step)

/-- `diesel::update(users.find(user_id)).set(username.eq(name)).execute`
(updates zero rows when the user does not exist, which is still `Ok`). -/
def qUpdateUsername (st : MysqlState) (uid : Nat) (name : String) :
    Except ProviderError Nat × MysqlState :=
  if st.failNow then (.error (.dieselError .transport), st.step)
  else
    (.ok (st.users.countP (fun u => u.id = uid)),
     { st.step with
        users := st.users.map (fun u => if u.id = uid then { u with username := some name } else u) })

/-- `diesel::replace_into(ids).values(NewIdMapping::new(name, uid)).execute`. -/
def qReplaceIntoIds (st : MysqlState) (name : String) (uid : Nat) :
    Except ProviderError Nat × MysqlState :=
  if st.failNow then (.error (.dieselError .transport), st.step)
  else
    (.ok 1,
     { st.step with ids := st.ids.filter (fun r => r.username ≠ name) ++ [⟨name, uid⟩] })

/-- `BanQuery` from `modules/bans.rs`. -/
inductive BanQuery where
  | address (s : String)
  | id (user_id : Nat)
deriving DecidableEq, Repr

/-- `Cache::register_ban`: optionally `SET banned_addr::<ip>`, then
`GETSET banned::<user_id>` with the serialized ban, parsing the previous
value (if any) back into a `Ban`. -/
def Cache.register_ban (st : RedisState) (ban : Ban) :
    Except ProviderError (Option Ban) × RedisState :=
  let step1 : Except ProviderError Unit × RedisState :=
    match ban.address with
    | none => (.ok (), st)
    | some addr =>
      let (r, st1) := rSet st (.bannedAddr addr) (.ban ban)
      (r.bind respToUnit, st1)
  match step1 with
  | (.error e, st1) => (.error e, st1)
  | (.ok _, st1) =>
    let (r, st2) := rGetset st1 (.banned ban.concerns) (.ban ban)
    ((do
        let resp ← r
        let raw ← respToOptPayload resp
        match raw with
        | none => pure none
        | some p => do
          let b ← payloadToBan p
          pure (some b)), st2)

/-- `Cache::set_banned`: unbanning deletes the key(s), its result read as a
boolean from the `DEL` reply; banning registers a fresh `NewBan` stamped with
the current time and reports whether the previous record was active. -/
def Cache.set_banned (st : RedisState) (user_id : Nat) (banned : Bool)
    (duration : Option Nat) (ip : Option String) (now : Int) :
    Except ProviderError Bool × RedisState :=
  if !banned then
    let step1 : Except ProviderError Unit × RedisState :=
      match ip with
      | none => (.ok (), st)
      | some addr =>
        let (r, st1) := rDel st (.bannedAddr addr)
        (r.bind respToUnit, st1)
    match step1 with
    | (.error e, st1) => (.error e, st1)
    | (.ok _, st1) =>
      let (r2, st2) := rDel st1 (.banned user_id)
      (r2.bind respToBool, st2)
  else
    let (r, st1) := Cache.register_ban st ⟨user_id, duration, now, ip⟩
    (r.map (fun old => old.elim false (fun b => b.active now)), st1)

/-- `Cache::get_ban`: `GET` the namespaced key, parse the payload. -/
def Cache.get_ban (st : RedisState) (q : BanQuery) :
    Except ProviderError (Option Ban) × RedisState :=
  let (r, st1) :=
    rGet st (match q with
             | .address s => .bannedAddr s
             | .id uid => .banned uid)
  ((do
      let resp ← r
      let raw ← respToOptPayload resp
      match raw with
      | none => pure none
      | some p => do
        let b ← payloadToBan p
        pure (some b)), st1)

/-- `Cache::is_banned`: `get_ban` then `map_or(false, active)`. -/
def Cache.is_banned (st : RedisState) (q : BanQuery) (now : Int) :
    Except ProviderError Bool × RedisState :=
  let (r, st1) := Cache.get_ban st q
  (r.map (fun ob => ob.elim false (fun b => b.active now)), st1)

/-- `Cache::register_mute`: a plain `SET muted::<user_id>` whose `+OK` status
reply is then requested as an `Option<Vec<u8>>` payload — the conversion
fails, so the write lands but the call errors and never yields the previous
record (contrast `Cache::register_ban`'s `GETSET`). -/
def Cache.register_mute (st : RedisState) (m : Mute) :
    Except ProviderError (Option Mute) × RedisState :=
  let (r, st1) := rSet st (.muted m.concerns) (.mute m)
  ((do
      let resp ← r
      let raw ← respToOptPayload resp
      match raw with
      | none => pure none
      | some p => do
        let mm ← payloadToMute p
        pure (some mm)), st1)

/-- `Cache::get_mute`. -/
def Cache.get_mute (st : RedisState) (user_id : Nat) :
    Except ProviderError (Option Mute) × RedisState :=
  let (r, st1) := rGet st (.muted user_id)
  ((do
      let resp ← r
      let raw ← respToOptPayload resp
      match raw with
      | none => pure none
      | some p => do
        let mm ← payloadToMute p
        pure (some mm)), st1)

/-- `Cache::is_muted`: `get_mute` then `map_or(false, active)`. -/
def Cache.is_muted (st : RedisState) (user_id : Nat) (now : Int) :
    Except ProviderError Bool × RedisState :=
  let (r, st1) := Cache.get_mute st user_id
  (r.map (fun om => om.elim false (fun m => m.active now)), st1)

/-- `Cache::set_muted`: unmuting reads `is_muted` first, deletes the key and
returns the prior value; muting requires a `duration` (else
`MissingArgument`) and registers a fresh `Mute` stamped with the current time. -/
def Cache.set_muted (st : RedisState) (user_id : Nat) (muted : Bool)
    (duration : Option Nat) (now : Int) : Except ProviderError Bool × RedisState :=
  if !muted then
    let (r1, st1) := Cache.is_muted st user_id now
    match r1 with
    | .error e => (.error e, st1)
    | .ok already_muted =>
      let (r2, st2) := rDel st1 (.muted user_id)
      ((r2.bind respToUnit).map (fun _ => already_muted), st2)
  else
    match duration with
    | none => (.error (.missingArgument "duration"), st)
    | some d =>
      let (r, st1) := Cache.register_mute st ⟨user_id, d, now⟩
      (r.map (fun old => old.elim false (fun m => m.active now)), st1)

/-- `Cache::has_role` (`roles.rs`): `SISMEMBER roles::<id> role.to_str()`. -/
def Cache.has_role (st : RedisState) (user_id : Nat) (role : Role) :
    Except ProviderError Bool × RedisState :=
  let (r, st1) := rSismember st user_id role.to_str
  (r.bind respToBool, st1)

/-- `Cache::give_roles`: `SADD roles::<id> members...`. -/
def Cache.give_roles (st : RedisState) (user_id : Nat) (roles : List Role) :
    Except ProviderError Unit × RedisState :=
  let (r, st1) := rSadd st user_id (roles.map Role.to_str)
  (r.bind respToUnit, st1)

/-- `Cache::give_role`: `give_roles` with a singleton slice. -/
def Cache.give_role (st : RedisState) (user_id : Nat) (role : Role) :
    Except ProviderError Unit × RedisState :=
  Cache.give_roles st user_id [role]

/-- `Cache::remove_role`: `SREM roles::<id> role.to_str()`. -/
def Cache.remove_role (st : RedisState) (user_id : Nat) (role : Role) :
    Except ProviderError Unit × RedisState :=
  let (r, st1) := rSrem st user_id role.to_str
  (r.bind respToUnit, st1)

/-- `Cache::roles_for_user`: `SMEMBERS`, parsing each member and silently
dropping members that parse to no role (`filter_map(|s| s.parse().ok())`). -/
def Cache.roles_for_user (st : RedisState) (user_id : Nat) :
    Except ProviderError (List Role) × RedisState :=
  let (r, st1) := rSmembers st user_id
  ((do
      let resp ← r
      let ss ← respToStrings resp
      pure (ss.filterMap Role.from_str)), st1)

/-- `Cache::purge_roles`: read `roles_for_user`, `DEL` the set key, return
what was read. -/
def Cache.purge_roles (st : RedisState) (user_id : Nat) :
    Except ProviderError (List Role) × RedisState :=
  let (r1, st1) := Cache.roles_for_user st user_id
  match r1 with
  | .error e => (.error e, st1)
  | .ok old =>
    let (r2, st2) := rDelRoles st1 user_id
    ((r2.bind respToUnit).map (fun _ => old), st2)

/-- `Cache::user_id_for` (`name_resolver.rs`): `GET user_id::<username>`. -/
def Cache.user_id_for (st : RedisState) (username : String) :
    Except ProviderError (Option Nat) × RedisState :=
  let (r, st1) := rGet st (.userIdKey username)
  (r.bind respToOptNat, st1)

/-- `Cache::username_for`: `GET username::<user_id>`. -/
def Cache.username_for (st : RedisState) (user_id : Nat) :
    Except ProviderError (Option String) × RedisState :=
  let (r, st1) := rGet st (.usernameKey user_id)
  (r.bind respToOptStr, st1)

/-- `Cache::set_combination`: one `MSET` writing both directions. -/
def Cache.set_combination (st : RedisState) (username : String) (user_id : Nat) :
    Except ProviderError Unit × RedisState :=
  let (r, st1) := rMset st (.userIdKey username) (.nat user_id) (.usernameKey user_id) (.str username)
  (r.bind respToUnit, st1)

/-- `Persistent::get_ban` (`bans.rs`): point or ip-filtered `first`, with
diesel's `NotFound` normalized to `Ok(None)`. -/
def Persistent.get_ban (st : MysqlState) (q : BanQuery) :
    Except ProviderError (Option Ban) × MysqlState :=
  let (r, st1) :=
    match q with
    | .id uid => qFirstBanById st uid
    | .address a => qFirstBanByIp st a
  (match r with
   | .ok b => .ok (some b)
   | .error (.dieselError .notFound) => .ok none
   | .error e => .error e, st1)

/-- `Persistent::register_ban`: read the old row, `replace_into`, return the
old row. -/
def Persistent.register_ban (st : MysqlState) (ban : Ban) :
    Except ProviderError (Option Ban) × MysqlState :=
  let (r1, st1) := Persistent.get_ban st (.id ban.concerns)
  match r1 with
  | .error e => (.error e, st1)
  | .ok old =>
    let (r2, st2) := qReplaceIntoBans st1 ban
    (r2.map (fun _ => old), st2)

/-- `Persistent::set_banned`: read the old ban; unbanning deletes the row and
reports whether the old ban was active; banning registers a fresh `NewBan`. -/
def Persistent.set_banned (st : MysqlState) (user_id : Nat) (banned : Bool)
    (duration : Option Nat) (ip : Option String) (now : Int) :
    Except ProviderError Bool × MysqlState :=
  let (r1, st1) := Persistent.get_ban st (.id user_id)
  match r1 with
  | .error e => (.error e, st1)
  | .ok old =>
    if !banned then
      let (r2, st2) := qDeleteBan st1 user_id
      (r2.map (fun _ => old.elim false (fun b => b.active now)), st2)
    else
      let (r2, st2) := Persistent.register_ban st1 ⟨user_id, duration, now, ip⟩
      (r2.map (fun o => o.elim false (fun b => b.active now)), st2)

/-- `Persistent::is_banned`: `get_ban` then `map_or(false, active)`. -/
def Persistent.is_banned (st : MysqlState) (q : BanQuery) (now : Int) :
    Except ProviderError Bool × MysqlState :=
  let (r, st1) := Persistent.get_ban st q
  (r.map (fun ob => ob.elim false (fun b => b.active now)), st1)

/-- `Persistent::get_mute` (`mutes.rs`): point `first` with `NotFound`
normalized to `Ok(None)`. -/
def Persistent.get_mute (st : MysqlState) (user_id : Nat) :
    Except ProviderError (Option Mute) × MysqlState :=
  let (r, st1) := qFirstMuteById st user_id
  (match r with
   | .ok m => .ok (some m)
   | .error (.dieselError .notFound) => .ok none
   | .error e => .error e, st1)

/-- `Persistent::register_mute`: read the old row, then a plain
`insert_into` (not `replace_into`), which fails on an existing row. -/
def Persistent.register_mute (st : MysqlState) (m : Mute) :
    Except ProviderError (Option Mute) × MysqlState :=
  let (r1, st1) := Persistent.get_mute st m.concerns
  match r1 with
  | .error e => (.error e, st1)
  | .ok old =>
    let (r2, st2) := qInsertIntoMutes st1 m
    (r2.map (fun _ => old), st2)

/-- `Persistent::set_muted`: read the old mute; unmuting deletes the row and
reports whether the old mute was active; muting requires a `duration` (else
`MissingArgument`) and registers a fresh `Mute`. -/
def Persistent.set_muted (st : MysqlState) (user_id : Nat) (muted : Bool)
    (duration : Option Nat) (now : Int) : Except ProviderError Bool × MysqlState :=
  let (r1, st1) := Persistent.get_mute st user_id
  match r1 with
  | .error e => (.error e, st1)
  | .ok old =>
    if !muted then
      let (r2, st2) := qDeleteMute st1 user_id
      (r2.map (fun _ => old.elim false (fun m => m.active now)), st2)
    else
      match duration with
      | none => (.error (.missingArgument "duration"), st1)
      | some d =>
        let (r2, st2) := Persistent.register_mute st1 ⟨user_id, d, now⟩
        (r2.map (fun o => o.elim false (fun m => m.active now)), st2)

/-- `Persistent::is_muted`: `get_mute` then `map_or(false, active)`. -/
def Persistent.is_muted (st : MysqlState) (user_id : Nat) (now : Int) :
    Except ProviderError Bool × MysqlState :=
  let (r, st1) := Persistent.get_mute st user_id
  (r.map (fun om => om.elim false (fun m => m.active now)), st1)

/-- `Persistent::has_role` (`roles.rs`): `first::<RoleEntry>` then
`has_role`; note that `NotFound` is NOT normalized here — a user with no
roles row surfaces diesel's error. -/
def Persistent.has_role (st : MysqlState) (user_id : Nat) (role : Role) :
    Except ProviderError Bool × MysqlState :=
  let (r, st1) := qFirstRoleEntry st user_id
  (r.map (fun e => e.has_role role), st1)

/-- `Persistent::give_role`: `construct_give_role_statement(user_id, true)`. -/
def Persistent.give_role (st : MysqlState) (user_id : Nat) (role : Role) :
    Except ProviderError Unit × MysqlState :=
  let (r, st1) := qGiveRolesStatement st user_id [role] true
  (r.map (fun _ => ()), st1)

/-- `Persistent::give_roles`: the multi-column conditional upsert statement. -/
def Persistent.give_roles (st : MysqlState) (user_id : Nat) (roles : List Role) :
    Except ProviderError Unit × MysqlState :=
  let (r, st1) := qGiveRolesStatement st user_id roles true
  (r.map (fun _ => ()), st1)

/-- `Persistent::remove_role`: `construct_give_role_statement(user_id, false)`. -/
def Persistent.remove_role (st : MysqlState) (user_id : Nat) (role : Role) :
    Except ProviderError Unit × MysqlState :=
  let (r, st1) := qGiveRolesStatement st user_id [role] false
  (r.map (fun _ => ()), st1)

/-- `Persistent::roles_for_user`: `first::<RoleEntry>().optional()?` then
`unwrap_or_default()` converted to a `Vec<Role>` — `NotFound` becomes the
default (empty) entry. -/
def Persistent.roles_for_user (st : MysqlState) (user_id : Nat) :
    Except ProviderError (List Role) × MysqlState :=
  let (r, st1) := qFirstRoleEntry st user_id
  (match r with
   | .ok e => .ok e.toRoles
   | .error (.dieselError .notFound) => .ok (RoleEntry.default.toRoles)
   | .error e => .error e, st1)

/-- `Persistent::purge_roles`: read the current roles, delete the row,
return what was read. -/
def Persistent.purge_roles (st : MysqlState) (user_id : Nat) :
    Except ProviderError (List Role) × MysqlState :=
  let (r1, st1) := Persistent.roles_for_user st user_id
  match r1 with
  | .error e => (.error e, st1)
  | .ok rs =>
    let (r2, st2) := qDeleteRoleRow st1 user_id
    (r2.map (fun _ => rs), st2)

/-- `Persistent::user_id_for` (`name_resolver.rs`): point `first` on the
`ids` table with `NotFound` normalized to `Ok(None)`. -/
def Persistent.user_id_for (st : MysqlState) (username : String) :
    Except ProviderError (Option Nat) × MysqlState :=
  let (r, st1) := qFirstUserId st username
  (match r with
   | .ok uid => .ok (some uid)
   | .error (.dieselError .notFound) => .ok none
   | .error e => .error e, st1)

/-- `Persistent::username_for`: `first::<Option<String>>` on the nullable
`username` column with only `map_err` applied — a missing user row surfaces
diesel's `NotFound` as an error instead of `Ok(None)`. -/
def Persistent.username_for (st : MysqlState) (user_id : Nat) :
    Except ProviderError (Option String) × MysqlState :=
  qFirstUsername st user_id

/-- `Persistent::set_combination`: update the user's canonical username,
then `replace_into` the `ids` mapping. -/
def Persistent.set_combination (st : MysqlState) (username : String) (user_id : Nat) :
    Except ProviderError Unit × MysqlState :=
  let (r1, st1) := qUpdateUsername st user_id username
  match r1 with
  | .error e => (.error e, st1)
  | .ok _ =>
    let (r2, st2) := qReplaceIntoIds st1 username user_id
    (r2.map (fun _ => ()), st2)

/-- The `Hybrid` coordinator's state: references to both tiers. -/
structure HybridState where
  cache : RedisState
  persistent : MysqlState

/-- Rust's `Result::and`: keep the first error, otherwise the second result.
Because `a.and(b)` evaluates `b` eagerly, every Hybrid write below runs the
persistent write even when the cache write failed. -/
def resultAnd (a : Except ProviderError α) (b : Except ProviderError β) :
    Except ProviderError β :=
  match a with
  | .error e => .error e
  | .ok _ => b

/-- `Hybrid::set_banned`: `cache.set_banned(..).and(persistent.set_banned(..))`.
Each tier stamps its own `Utc::now()` sample (`nowC`, `nowP`). -/
def Hybrid.set_banned (st : HybridState) (user_id : Nat) (banned : Bool)
    (duration : Option Nat) (ip : Option String) (nowC nowP : Int) :
    Except ProviderError Bool × HybridState :=
  let (rc, c) := Cache.set_banned st.cache user_id banned duration ip nowC
  let (rp, p) := Persistent.set_banned st.persistent user_id banned duration ip nowP
  (resultAnd rc rp, ⟨c, p⟩)

/-- `Hybrid::register_ban`: `cache.register_ban(ban).and(persistent.register_ban(ban))`. -/
def Hybrid.register_ban (st : HybridState) (ban : Ban) :
    Except ProviderError (Option Ban) × HybridState :=
  let (rc, c) := Cache.register_ban st.cache ban
  let (rp, p) := Persistent.register_ban st.persistent ban
  (resultAnd rc rp, ⟨c, p⟩)

/-- `Hybrid::get_ban`: try the cache, fall back to persistent only on a cache
error; no repopulation of the cache happens on fallback. -/
def Hybrid.get_ban (st : HybridState) (q : BanQuery) :
    Except ProviderError (Option Ban) × HybridState :=
  let (rc, c) := Cache.get_ban st.cache q
  match rc with
  | .ok v => (.ok v, ⟨c, st.persistent⟩)
  | .error _ =>
    let (rp, p) := Persistent.get_ban st.persistent q
    (rp, ⟨c, p⟩)

/-- `Hybrid::is_banned`: try the cache, fall back to persistent only on a
cache error. -/
def Hybrid.is_banned (st : HybridState) (q : BanQuery) (now : Int) :
    Except ProviderError Bool × HybridState :=
  let (rc, c) := Cache.is_banned st.cache q now
  match rc with
  | .ok v => (.ok v, ⟨c, st.persistent⟩)
  | .error _ =>
    let (rp, p) := Persistent.is_banned st.persistent q now
    (rp, ⟨c, p⟩)

/-- `Hybrid::set_muted`: `cache.set_muted(..).and(persistent.set_muted(..))`. -/
def Hybrid.set_muted (st : HybridState) (user_id : Nat) (muted : Bool)
    (duration : Option Nat) (nowC nowP : Int) :
    Except ProviderError Bool × HybridState :=
  let (rc, c) := Cache.set_muted st.cache user_id muted duration nowC
  let (rp, p) := Persistent.set_muted st.persistent user_id muted duration nowP
  (resultAnd rc rp, ⟨c, p⟩)

/-- `Hybrid::register_mute`: `cache.register_mute(m).and(persistent.register_mute(m))`. -/
def Hybrid.register_mute (st : HybridState) (m : Mute) :
    Except ProviderError (Option Mute) × HybridState :=
  let (rc, c) := Cache.register_mute st.cache m
  let (rp, p) := Persistent.register_mute st.persistent m
  (resultAnd rc rp, ⟨c, p⟩)

/-- `Hybrid::get_mute`: cache first, persistent only on a cache error; no
repopulation on fallback. -/
def Hybrid.get_mute (st : HybridState) (user_id : Nat) :
    Except ProviderError (Option Mute) × HybridState :=
  let (rc, c) := Cache.get_mute st.cache user_id
  match rc with
  | .ok v => (.ok v, ⟨c, st.persistent⟩)
  | .error _ =>
    let (rp, p) := Persistent.get_mute st.persistent user_id
    (rp, ⟨c, p⟩)

/-- `Hybrid::is_muted`: cache first, persistent only on a cache error. -/
def Hybrid.is_muted (st : HybridState) (user_id : Nat) (now : Int) :
    Except ProviderError Bool × HybridState :=
  let (rc, c) := Cache.is_muted st.cache user_id now
  match rc with
  | .ok v => (.ok v, ⟨c, st.persistent⟩)
  | .error _ =>
    let (rp, p) := Persistent.is_muted st.persistent user_id now
    (rp, ⟨c, p⟩)

/-- `Hybrid::has_role`: cache first; on a cache error consult persistent and
repair the cache (`give_role` on a positive answer, `remove_role` on a
negative one), surfacing a repair failure as the call's error. -/
def Hybrid.has_role (st : HybridState) (user_id : Nat) (role : Role) :
    Except ProviderError Bool × HybridState :=
  let (rc, c) := Cache.has_role st.cache user_id role
  match rc with
  | .ok v => (.ok v, ⟨c, st.persistent⟩)
  | .error _ =>
    let (rp, p) := Persistent.has_role st.persistent user_id role
    match rp with
    | .error e => (.error e, ⟨c, p⟩)
    | .ok hr =>
      let (rw, c2) := if hr then Cache.give_role c user_id role
                      else Cache.remove_role c user_id role
      (rw.map (fun _ => hr), ⟨c2, p⟩)

/-- `Hybrid::give_role`: `cache.give_role(..).and(persistent.give_role(..))`. -/
def Hybrid.give_role (st : HybridState) (user_id : Nat) (role : Role) :
    Except ProviderError Unit × HybridState :=
  let (rc, c) := Cache.give_role st.cache user_id role
  let (rp, p) := Persistent.give_role st.persistent user_id role
  (resultAnd rc rp, ⟨c, p⟩)

/-- `Hybrid::give_roles`: `cache.give_roles(..).and(persistent.give_roles(..))`. -/
def Hybrid.give_roles (st : HybridState) (user_id : Nat) (roles : List Role) :
    Except ProviderError Unit × HybridState :=
  let (rc, c) := Cache.give_roles st.cache user_id roles
  let (rp, p) := Persistent.give_roles st.persistent user_id roles
  (resultAnd rc rp, ⟨c, p⟩)

/-- `Hybrid::remove_role`: `cache.remove_role(..).and(persistent.remove_role(..))`. -/
def Hybrid.remove_role (st : HybridState) (user_id : Nat) (role : Role) :
    Except ProviderError Unit × HybridState :=
  let (rc, c) := Cache.remove_role st.cache user_id role
  let (rp, p) := Persistent.remove_role st.persistent user_id role
  (resultAnd rc rp, ⟨c, p⟩)

/-- `Hybrid::purge_roles`: `cache.purge_roles(..).and(persistent.purge_roles(..))` —
when both succeed the returned list is the persistent tier's read; the cache
tier's read is discarded by `and`. -/
def Hybrid.purge_roles (st : HybridState) (user_id : Nat) :
    Except ProviderError (List Role) × HybridState :=
  let (rc, c) := Cache.purge_roles st.cache user_id
  let (rp, p) := Persistent.purge_roles st.persistent user_id
  (resultAnd rc rp, ⟨c, p⟩)

/-- `Hybrid::roles_for_user`: cache first; on a cache error fall back to
persistent and repopulate the cache via `give_roles` with the recovered list. -/
def Hybrid.roles_for_user (st : HybridState) (user_id : Nat) :
    Except ProviderError (List Role) × HybridState :=
  let (rc, c) := Cache.roles_for_user st.cache user_id
  match rc with
  | .ok v => (.ok v, ⟨c, st.persistent⟩)
  | .error _ =>
    let (rp, p) := Persistent.roles_for_user st.persistent user_id
    match rp with
    | .error e => (.error e, ⟨c, p⟩)
    | .ok rs =>
      let (rw, c2) := Cache.give_roles c user_id rs
      (rw.map (fun _ => rs), ⟨c2, p⟩)

/-- `Hybrid::user_id_for` (`name_resolver.rs`): cache first; on a cache error
fall back to persistent, and on a recovered `Some(id)` repopulate the cache
with `set_combination` before returning (`.and(Ok(Some(id)))`). -/
def Hybrid.user_id_for (st : HybridState) (username : String) :
    Except ProviderError (Option Nat) × HybridState :=
  let (rc, c) := Cache.user_id_for st.cache username
  match rc with
  | .ok v => (.ok v, ⟨c, st.persistent⟩)
  | .error _ =>
    let (rp, p) := Persistent.user_id_for st.persistent username
    match rp with
    | .error e => (.error e, ⟨c, p⟩)
    | .ok none => (.ok none, ⟨c, p⟩)
    | .ok (some uid) =>
      let (rw, c2) := Cache.set_combination c username uid
      (resultAnd rw (.ok (some uid)), ⟨c2, p⟩)

/-- `Hybrid::username_for`: symmetric to `user_id_for`, repopulating via
`set_combination(&username, user_id)` on a recovered `Some(username)`. -/
def Hybrid.username_for (st : HybridState) (user_id : Nat) :
    Except ProviderError (Option String) × HybridState :=
  let (rc, c) := Cache.username_for st.cache user_id
  match rc with
  | .ok v => (.ok v, ⟨c, st.persistent⟩)
  | .error _ =>
    let (rp, p) := Persistent.username_for st.persistent user_id
    match rp with
    | .error e => (.error e, ⟨c, p⟩)
    | .ok none => (.ok none, ⟨c, p⟩)
    | .ok (some name) =>
      let (rw, c2) := Cache.set_combination c name user_id
      (resultAnd rw (.ok (some name)), ⟨c2, p⟩)

/-- `Hybrid::set_combination`: `cache.set_combination(..).and(persistent.set_combination(..))`. -/
def Hybrid.set_combination (st : HybridState) (username : String) (user_id : Nat) :
    Except ProviderError Unit × HybridState :=
  let (rc, c) := Cache.set_combination st.cache username user_id
  let (rp, p) := Persistent.set_combination st.persistent username user_id
  (resultAnd rc rp, ⟨c, p⟩)

/-- A fault schedule that never fails (a healthy connection). -/
def noFaults : Nat → Bool := fun _ => false

/-- A fault schedule on which every command fails (a down connection). -/
def allFaults : Nat → Bool := fun _ => true

/-- A fault schedule failing only the first issued command (a transient
error: the read fails, the repair write that follows succeeds). -/
def firstFault : Nat → Bool := fun n => n = 0

/-- A healthy, empty redis connection. -/
def redis0 : RedisState := ⟨noFaults, 0, fun _ => none, fun _ => []⟩

/-- A down redis connection (every command errors). -/
def redisDown : RedisState := ⟨allFaults, 0, fun _ => none, fun _ => []⟩

/-- A healthy, empty MySQL database. -/
def mysql0 : MysqlState := ⟨noFaults, 0, [], [], [], [], []⟩

/-- A healthy, empty hybrid pair. -/
def hyb0 : HybridState := ⟨redis0, mysql0⟩

/-- A sample ban: user 1, 5 ns, stamped at 0, no ip. -/
def ban1 : Ban := ⟨1, some 5, 0, none⟩

/-- A sample mute: user 7, 50 ns, stamped at 0. -/
def mute7 : Mute := ⟨7, 50, 0⟩

/-- A healthy MySQL database already holding `mute7`. -/
def mysqlMute7 : MysqlState := { mysql0 with mutes := [mute7] }

/-- A healthy redis connection already holding `mute7` under `muted::7`. -/
def redisMute7 : RedisState :=
  { redis0 with kv := fun k => if k = .muted 7 then some (.mute mute7) else none }

/-- A redis connection whose first command fails and that recovers after
(used to exercise the read-repair paths). -/
def redisFirstFault : RedisState := ⟨firstFault, 0, fun _ => none, fun _ => []⟩

/-- A healthy MySQL database with a roles row for user 3 (moderator), a users
row (id 3, username "mrmouton"), and the matching ids row. -/
def mysqlUser3 : MysqlState :=
  { mysql0 with
      roles := [⟨0, 3, none, some true, none, none, none, none⟩],
      users := [⟨3, some "mrmouton"⟩],
      ids := [⟨"mrmouton", 3⟩] }

/-- A redis connection holding role members `["bot"]` for user 3. -/
def redisBot3 : RedisState :=
  { redis0 with roleSets := fun u => if u = 3 then ["bot"] else [] }

/-- The contract every `Hybrid` write satisfies, relating one hybrid call to
the two tier calls it is composed of: success iff both tiers succeed, the
cache tier's error is returned when it fails, otherwise the persistent tier's
result is returned, and the post-state pairs the two tier post-states (the
cache write runs first; the persistent write runs unconditionally, mirroring
Rust's eager `Result::and`). -/
def WriteContract {α β : Type} (hy : Except ProviderError β × HybridState)
    (ca : Except ProviderError α × RedisState)
    (pe : Except ProviderError β × MysqlState) : Prop :=
  hy.1.isOk = (ca.1.isOk && pe.1.isOk)
  ∧ (∀ e, ca.1 = .error e → hy.1 = .error e)
  ∧ (∀ v, ca.1 = .ok v → hy.1 = pe.1)
  ∧ hy.2 = ⟨ca.2, pe.2⟩

/-- A redis connection whose set for user 9 holds a valid member and a member
that parses to no role. -/
def redisGnome : RedisState :=
  { redis0 with roleSets := fun u => if u = 9 then ["moderator", "gnome"] else [] }

/-- A permanent ban (no duration). -/
def banPerm : Ban := ⟨2, none, 0, none⟩

lemma error_bind {α β : Type} (e : ProviderError) (f : α → Except ProviderError β) :
    (Except.error e >>= f) = Except.error e := rfl

lemma ok_bind {α β : Type} (a : α) (f : α → Except ProviderError β) :
    (Except.ok a >>= f) = f a := rfl

lemma error_bind2 {α β : Type} (e : ProviderError) (f : α → Except ProviderError β) :
    (Except.error e).bind f = Except.error e := rfl

lemma ok_bind2 {α β : Type} (a : α) (f : α → Except ProviderError β) :
    (Except.ok a).bind f = f a := rfl

lemma isOk_error {α : Type} (e : ProviderError) :
    (Except.error e : Except ProviderError α).isOk = false := rfl

lemma isOk_ok {α : Type} (a : α) : (Except.ok a : Except ProviderError α).isOk = true := rfl

lemma map_error {α β : Type} (f : α → β) (e : ProviderError) :
    Except.map f (Except.error e : Except ProviderError α) = Except.error e := rfl

lemma map_ok {α β : Type} (f : α → β) (a : α) :
    Except.map f (Except.ok a : Except ProviderError α) = Except.ok (f a) := rfl

lemma find?_false {α : Type} (l : List α) : l.find? (fun _ => false) = none := by
  induction l with
  | nil => rfl
  | cons x xs ih => simp [List.find?, ih]

lemma resultAnd_isOk {α β : Type} (a : Except ProviderError α) (b : Except ProviderError β) :
    (resultAnd a b).isOk = (a.isOk && b.isOk) := by
  cases a <;> cases b <;> rfl

lemma writeContract_mk {α β : Type} (a : Except ProviderError α × RedisState)
    (b : Except ProviderError β × MysqlState) :
    WriteContract (resultAnd a.1 b.1, ⟨a.2, b.2⟩) a b := by
  rcases a with ⟨ra, sa⟩
  rcases b with ⟨rb, sb⟩
  refine ⟨?_, ?_, ?_, rfl⟩
  · cases ra <;> cases rb <;> rfl
  · intro e he
    subst he
    rfl
  · intro v hv
    subst hv
    rfl

lemma find?_filter_pk_append (l : List Ban) (ban : Ban) :
    ((l.filter (fun b => b.user_id ≠ ban.user_id)) ++ [ban]).find?
      (fun b => b.user_id = ban.user_id) = some ban := by
  induction l with
  | nil => simp [List.find?]
  | cons x xs ih =>
    by_cases h : x.user_id = ban.user_id <;>
      simp [List.filter_cons, h, List.find?, ih]

lemma cache_register_ban_ok (st : RedisState) (ban : Ban)
    (h : (Cache.register_ban st ban).1.isOk = true) :
    (Cache.register_ban st ban).2.kv (.banned ban.user_id) = some (.ban ban) := by
  unfold Cache.register_ban at h ⊢
  cases hip : ban.address with
  | none =>
    by_cases hf : st.faults st.tick = true
    · simp [hip, rGetset, RedisState.failNow, hf, error_bind, isOk_error] at h
    · simp [hip, rGetset, RedisState.failNow, RedisState.step, hf, Ban.concerns]
  | some addr =>
    by_cases hf1 : st.faults st.tick = true
    · simp [hip, rSet, RedisState.failNow, hf1, respToUnit, error_bind, error_bind2,
        isOk_error] at h
    · by_cases hf2 : st.faults (st.tick + 1) = true
      · simp [hip, rSet, RedisState.failNow, RedisState.step, hf1, hf2, respToUnit,
          rGetset, error_bind, error_bind2, isOk_error, ok_bind, ok_bind2] at h
      · simp [hip, rSet, RedisState.failNow, RedisState.step, hf1, hf2, respToUnit,
          rGetset, ok_bind, ok_bind2, Ban.concerns]

lemma cache_get_ban_read (st : RedisState) (uid : Nat) (b : Ban)
    (hf : st.faults st.tick = false) (hk : st.kv (.banned uid) = some (.ban b)) :
    (Cache.get_ban st (.id uid)).1 = .ok (some b) := by
  simp [Cache.get_ban, rGet, RedisState.failNow, hf, hk, respToOptPayload, payloadToBan,
    ok_bind, ok_bind2]

lemma persistent_register_ban_ok (st : MysqlState) (ban : Ban)
    (h : (Persistent.register_ban st ban).1.isOk = true) :
    (Persistent.register_ban st ban).2.bans
      = st.bans.filter (fun x => x.user_id ≠ ban.user_id) ++ [ban] := by
  unfold Persistent.register_ban at h ⊢
  by_cases hf1 : st.faults st.tick = true
  · simp [Persistent.get_ban, qFirstBanById, MysqlState.failNow, hf1, isOk_error] at h
  · rcases hfind : st.bans.find? (fun b => b.user_id = ban.concerns) with _ | b
    · by_cases hf2 : st.faults (st.tick + 1) = true
      · simp [Persistent.get_ban, qFirstBanById, MysqlState.failNow, MysqlState.step,
          hf1, hf2, hfind, qReplaceIntoBans, isOk_error, map_error] at h
      · simp [Persistent.get_ban, qFirstBanById, MysqlState.failNow, MysqlState.step,
          hf1, hf2, hfind, qReplaceIntoBans]
    · by_cases hf2 : st.faults (st.tick + 1) = true
      · simp [Persistent.get_ban, qFirstBanById, MysqlState.failNow, MysqlState.step,
          hf1, hf2, hfind, qReplaceIntoBans, isOk_error, map_error] at h
      · simp [Persistent.get_ban, qFirstBanById, MysqlState.failNow, MysqlState.step,
          hf1, hf2, hfind, qReplaceIntoBans]

lemma persistent_get_ban_read_back (st : MysqlState) (ban : Ban)
    (h : (Persistent.register_ban st ban).1.isOk = true)
    (hf : (Persistent.register_ban st ban).2.faults
            ((Persistent.register_ban st ban).2.tick) = false) :
    (Persistent.get_ban (Persistent.register_ban st ban).2 (.id ban.user_id)).1
      = .ok (some ban) := by
  have hb := persistent_register_ban_ok st ban h
  simp [Persistent.get_ban, qFirstBanById, MysqlState.failNow, hf, hb, find?_filter_pk_append,
    find?_false, Option.or]

/-- C1: every `Hybrid` write (`set_banned`, `set_muted`, `register_ban`,
`register_mute`, `give_role`, `give_roles`, `remove_role`, `purge_roles`,
`set_combination`) applies the cache write and the persistent write in that
order, succeeds iff both tier writes succeed, and returns the failing tier's
error otherwise; and after a successful `Hybrid::register_ban`, querying
`Cache::get_ban` and `Persistent::get_ban` independently (with the next
command not faulted) each returns exactly the registered ban record, whose
`user_id` and `duration` are the written ones. -/
theorem claim1_hybrid_write_policy :
    (∀ (st : HybridState) (uid : Nat) (flag : Bool) (dur : Option Nat)
       (ip : Option String) (nowC nowP : Int),
      WriteContract (Hybrid.set_banned st uid flag dur ip nowC nowP)
        (Cache.set_banned st.cache uid flag dur ip nowC)
        (Persistent.set_banned st.persistent uid flag dur ip nowP))
    ∧ (∀ (st : HybridState) (uid : Nat) (flag : Bool) (dur : Option Nat) (nowC nowP : Int),
      WriteContract (Hybrid.set_muted st uid flag dur nowC nowP)
        (Cache.set_muted st.cache uid flag dur nowC)
        (Persistent.set_muted st.persistent uid flag dur nowP))
    ∧ (∀ (st : HybridState) (ban : Ban),
      WriteContract (Hybrid.register_ban st ban)
        (Cache.register_ban st.cache ban)
        (Persistent.register_ban st.persistent ban))
    ∧ (∀ (st : HybridState) (m : Mute),
      WriteContract (Hybrid.register_mute st m)
        (Cache.register_mute st.cache m)
        (Persistent.register_mute st.persistent m))
    ∧ (∀ (st : HybridState) (uid : Nat) (role : Role),
      WriteContract (Hybrid.give_role st uid role)
        (Cache.give_role st.cache uid role)
        (Persistent.give_role st.persistent uid role))
    ∧ (∀ (st : HybridState) (uid : Nat) (roles : List Role),
      WriteContract (Hybrid.give_roles st uid roles)
        (Cache.give_roles st.cache uid roles)
        (Persistent.give_roles st.persistent uid roles))
    ∧ (∀ (st : HybridState) (uid : Nat) (role : Role),
      WriteContract (Hybrid.remove_role st uid role)
        (Cache.remove_role st.cache uid role)
        (Persistent.remove_role st.persistent uid role))
    ∧ (∀ (st : HybridState) (uid : Nat),
      WriteContract (Hybrid.purge_roles st uid)
        (Cache.purge_roles st.cache uid)
        (Persistent.purge_roles st.persistent uid))
    ∧ (∀ (st : HybridState) (name : String) (uid : Nat),
      WriteContract (Hybrid.set_combination st name uid)
        (Cache.set_combination st.cache name uid)
        (Persistent.set_combination st.persistent name uid))
    ∧ (∀ (st : HybridState) (ban : Ban),
        (Hybrid.register_ban st ban).1.isOk = true →
        ((Hybrid.register_ban st ban).2.cache.faults (Hybrid.register_ban st ban).2.cache.tick
            = false →
          (Cache.get_ban (Hybrid.register_ban st ban).2.cache (.id ban.user_id)).1
            = .ok (some ban))
        ∧ ((Hybrid.register_ban st ban).2.persistent.faults
              (Hybrid.register_ban st ban).2.persistent.tick = false →
          (Persistent.get_ban (Hybrid.register_ban st ban).2.persistent (.id ban.user_id)).1
            = .ok (some ban))) := by
  refine ⟨?_, ?_, ?_, ?_, ?_, ?_, ?_, ?_, ?_, ?_⟩
  · intro st uid flag dur ip nowC nowP
    exact writeContract_mk (Cache.set_banned st.cache uid flag dur ip nowC)
      (Persistent.set_banned st.persistent uid flag dur ip nowP)
  · intro st uid flag dur nowC nowP
    exact writeContract_mk (Cache.set_muted st.cache uid flag dur nowC)
      (Persistent.set_muted st.persistent uid flag dur nowP)
  · intro st ban
    exact writeContract_mk (Cache.register_ban st.cache ban)
      (Persistent.register_ban st.persistent ban)
  · intro st m
    exact writeContract_mk (Cache.register_mute st.cache m)
      (Persistent.register_mute st.persistent m)
  · intro st uid role
    exact writeContract_mk (Cache.give_role st.cache uid role)
      (Persistent.give_role st.persistent uid role)
  · intro st uid roles
    exact writeContract_mk (Cache.give_roles st.cache uid roles)
      (Persistent.give_roles st.persistent uid roles)
  · intro st uid role
    exact writeContract_mk (Cache.remove_role st.cache uid role)
      (Persistent.remove_role st.persistent uid role)
  · intro st uid
    exact writeContract_mk (Cache.purge_roles st.cache uid)
      (Persistent.purge_roles st.persistent uid)
  · intro st name uid
    exact writeContract_mk (Cache.set_combination st.cache name uid)
      (Persistent.set_combination st.persistent name uid)
  · intro st ban h
    have h2 : ((Cache.register_ban st.cache ban).1.isOk
        && (Persistent.register_ban st.persistent ban).1.isOk) = true := by
      rw [← resultAnd_isOk]
      exact h
    have hio : (Cache.register_ban st.cache ban).1.isOk = true
        ∧ (Persistent.register_ban st.persistent ban).1.isOk = true := by
      simpa using h2
    refine ⟨fun hf => ?_, fun hf => ?_⟩
    · exact cache_get_ban_read _ _ _ hf (cache_register_ban_ok _ _ hio.1)
    · exact persistent_get_ban_read_back _ _ hio.2 hf

/-- Witness for C1 at a concrete input: registering `ban1` on healthy empty
tiers succeeds, and both tiers' `get_ban` return it. -/
theorem claim1_hybrid_write_policy_witness :
    (Cache.get_ban (Hybrid.register_ban hyb0 ban1).2.cache (.id ban1.user_id)).1
      = .ok (some ban1)
    ∧ (Persistent.get_ban (Hybrid.register_ban hyb0 ban1).2.persistent (.id ban1.user_id)).1
      = .ok (some ban1) :=
  have h := claim1_hybrid_write_policy.2.2.2.2.2.2.2.2.2 hyb0 ban1 (by rfl)
  ⟨h.1 (by rfl), h.2 (by rfl)⟩

/-- C2: `Hybrid::is_banned` / `Hybrid::is_muted` trust any successful cache
answer (including a clean negative) and return it without consulting the
persistent tier; the persistent tier is consulted exactly when the cache call
errored, in which case the hybrid result is the persistent tier's result; and
with the cache simulated as always erroring, `Hybrid::is_muted` for a user
whose active mute exists only in the persistent tier returns `true`. -/
theorem claim2_read_fallback :
    (∀ (st : HybridState) (q : BanQuery) (now : Int),
      (∀ v, (Cache.is_banned st.cache q now).1 = .ok v →
        Hybrid.is_banned st q now = (.ok v, ⟨(Cache.is_banned st.cache q now).2, st.persistent⟩))
      ∧ (∀ e, (Cache.is_banned st.cache q now).1 = .error e →
        (Hybrid.is_banned st q now).1 = (Persistent.is_banned st.persistent q now).1))
    ∧ (∀ (st : HybridState) (uid : Nat) (now : Int),
      (∀ v, (Cache.is_muted st.cache uid now).1 = .ok v →
        Hybrid.is_muted st uid now = (.ok v, ⟨(Cache.is_muted st.cache uid now).2, st.persistent⟩))
      ∧ (∀ e, (Cache.is_muted st.cache uid now).1 = .error e →
        (Hybrid.is_muted st uid now).1 = (Persistent.is_muted st.persistent uid now).1))
    ∧ (∀ (st : HybridState) (uid : Nat) (now : Int) (m : Mute),
      st.cache.faults = allFaults →
      st.persistent.faults st.persistent.tick = false →
      st.persistent.mutes.find? (fun x => x.user_id = uid) = some m →
      m.active now = true →
      (Hybrid.is_muted st uid now).1 = .ok true) := by
  refine ⟨?_, ?_, ?_⟩
  · intro st q now
    rcases hC : Cache.is_banned st.cache q now with ⟨rc, c⟩
    rcases hP : Persistent.is_banned st.persistent q now with ⟨rp, p⟩
    constructor
    · intro v hv
      simp only [hC] at hv
      simp [Hybrid.is_banned, hC, hv]
    · intro e he
      simp only [hC] at he
      simp [Hybrid.is_banned, hC, hP, he]
  · intro st uid now
    rcases hC : Cache.is_muted st.cache uid now with ⟨rc, c⟩
    rcases hP : Persistent.is_muted st.persistent uid now with ⟨rp, p⟩
    constructor
    · intro v hv
      simp only [hC] at hv
      simp [Hybrid.is_muted, hC, hv]
    · intro e he
      simp only [hC] at he
      simp [Hybrid.is_muted, hC, hP, he]
  · intro st uid now m hfc hfp hfind hact
    have hcache : (Cache.is_muted st.cache uid now).1
        = .error (.redisError .transport) := by
      simp [Cache.is_muted, Cache.get_mute, rGet, RedisState.failNow, hfc, allFaults,
        error_bind, map_error]
    rcases hC : Cache.is_muted st.cache uid now with ⟨rc, c⟩
    have hrc : rc = .error (.redisError .transport) := by
      rw [← hcache, hC]
    simp [Hybrid.is_muted, hC, hrc, Persistent.is_muted, Persistent.get_mute,
      qFirstMuteById, MysqlState.failNow, hfp, hfind, map_ok, hact]

/-- Witness for C2 at a concrete input: cache down, `mute7` active in the
persistent tier only, `is_muted 7` at time 10 is `true`. -/
theorem claim2_read_fallback_witness :
    (Hybrid.is_muted ⟨redisDown, mysqlMute7⟩ 7 10).1 = .ok true :=
  claim2_read_fallback.2.2 ⟨redisDown, mysqlMute7⟩ 7 10 mute7 rfl rfl (by decide) (by decide)

lemma rGet_snd (st : RedisState) (k : RKey) : (rGet st k).2 = st.step := by
  unfold rGet
  split <;> rfl

lemma setAdd_cons (cur : List String) (m : String) (ms : List String) :
    setAdd cur (m :: ms) = setAdd (if m ∈ cur then cur else cur ++ [m]) ms := rfl

lemma mem_setAdd_left (cur members : List String) (s : String) :
    s ∈ cur → s ∈ setAdd cur members := by
  induction members generalizing cur with
  | nil => intro h; simpa [setAdd] using h
  | cons m ms ih =>
    intro h
    rw [setAdd_cons]
    apply ih
    split
    · exact h
    · simp [h]

lemma mem_setAdd_right (cur members : List String) (s : String) :
    s ∈ members → s ∈ setAdd cur members := by
  induction members generalizing cur with
  | nil => intro h; simp at h
  | cons m ms ih =>
    intro h
    rw [setAdd_cons]
    rcases List.mem_cons.mp h with rfl | hs
    · apply mem_setAdd_left
      split
      · assumption
      · simp
    · exact ih _ hs

lemma cache_set_combination_ok (st : RedisState) (name : String) (uid : Nat)
    (h : (Cache.set_combination st name uid).1 = .ok ()) :
    (Cache.set_combination st name uid).2.kv (.userIdKey name) = some (.nat uid)
    ∧ (Cache.set_combination st name uid).2.kv (.usernameKey uid) = some (.str name) := by
  by_cases hf : st.faults st.tick = true
  · simp [Cache.set_combination, rMset, RedisState.failNow, hf, error_bind2, respToUnit] at h
  · simp [Cache.set_combination, rMset, RedisState.failNow, RedisState.step, hf]

lemma cache_give_roles_mem (st : RedisState) (uid : Nat) (rs : List Role)
    (h : (Cache.give_roles st uid rs).1 = .ok ()) :
    ∀ r ∈ rs, r.to_str ∈ (Cache.give_roles st uid rs).2.roleSets uid := by
  intro r hr
  by_cases hf : st.faults st.tick = true
  · simp [Cache.give_roles, rSadd, RedisState.failNow, hf, error_bind2, respToUnit] at h
  · simp [Cache.give_roles, rSadd, RedisState.failNow, RedisState.step, hf]
    exact mem_setAdd_right _ _ _ (List.mem_map_of_mem _ hr)

lemma cache_remove_role_not_mem (st : RedisState) (uid : Nat) (role : Role)
    (h : (Cache.remove_role st uid role).1 = .ok ()) :
    role.to_str ∉ (Cache.remove_role st uid role).2.roleSets uid := by
  by_cases hf : st.faults st.tick = true
  · simp [Cache.remove_role, rSrem, RedisState.failNow, hf, error_bind2, respToUnit] at h
  · simp [Cache.remove_role, rSrem, RedisState.failNow, RedisState.step, hf, List.mem_filter]


lemma cache_get_ban_snd (st : RedisState) (q : BanQuery) :
    (Cache.get_ban st q).2 = st.step := by
  by_cases hf : st.failNow = true <;> simp [Cache.get_ban, rGet, hf]

lemma cache_is_banned_snd (st : RedisState) (q : BanQuery) (now : Int) :
    (Cache.is_banned st q now).2 = st.step := by
  by_cases hf : st.failNow = true <;>
    simp [Cache.is_banned, Cache.get_ban, rGet, hf]

lemma cache_get_mute_snd (st : RedisState) (uid : Nat) :
    (Cache.get_mute st uid).2 = st.step := by
  by_cases hf : st.failNow = true <;> simp [Cache.get_mute, rGet, hf]

lemma cache_is_muted_snd (st : RedisState) (uid : Nat) (now : Int) :
    (Cache.is_muted st uid now).2 = st.step := by
  by_cases hf : st.failNow = true <;>
    simp [Cache.is_muted, Cache.get_mute, rGet, hf]

/-- C3: on a cache error during a Hybrid read, the name-resolution reads
(`user_id_for`, `username_for`) and role reads (`roles_for_user`, `has_role`)
that successfully fall back to the persistent tier write the recovered value
back into the cache before returning it, while the ban/mute fallback reads
(`get_ban`, `get_mute`, `is_banned`, `is_muted`) never change the cache's
stored keys or role sets. -/
theorem claim3_read_repair_asymmetry :
    (∀ (st : HybridState) (name : String) (uid : Nat) (e : ProviderError),
      (Cache.user_id_for st.cache name).1 = .error e →
      (Persistent.user_id_for st.persistent name).1 = .ok (some uid) →
      (Cache.set_combination (Cache.user_id_for st.cache name).2 name uid).1 = .ok () →
      (Hybrid.user_id_for st name).1 = .ok (some uid)
      ∧ (Hybrid.user_id_for st name).2.cache.kv (.userIdKey name) = some (.nat uid)
      ∧ (Hybrid.user_id_for st name).2.cache.kv (.usernameKey uid) = some (.str name))
    ∧ (∀ (st : HybridState) (uid : Nat) (name : String) (e : ProviderError),
      (Cache.username_for st.cache uid).1 = .error e →
      (Persistent.username_for st.persistent uid).1 = .ok (some name) →
      (Cache.set_combination (Cache.username_for st.cache uid).2 name uid).1 = .ok () →
      (Hybrid.username_for st uid).1 = .ok (some name)
      ∧ (Hybrid.username_for st uid).2.cache.kv (.userIdKey name) = some (.nat uid)
      ∧ (Hybrid.username_for st uid).2.cache.kv (.usernameKey uid) = some (.str name))
    ∧ (∀ (st : HybridState) (uid : Nat) (rs : List Role) (e : ProviderError),
      (Cache.roles_for_user st.cache uid).1 = .error e →
      (Persistent.roles_for_user st.persistent uid).1 = .ok rs →
      (Cache.give_roles (Cache.roles_for_user st.cache uid).2 uid rs).1 = .ok () →
      (Hybrid.roles_for_user st uid).1 = .ok rs
      ∧ ∀ r ∈ rs, r.to_str ∈ (Hybrid.roles_for_user st uid).2.cache.roleSets uid)
    ∧ (∀ (st : HybridState) (uid : Nat) (role : Role) (e : ProviderError) (hr : Bool),
      (Cache.has_role st.cache uid role).1 = .error e →
      (Persistent.has_role st.persistent uid role).1 = .ok hr →
      ((if hr then Cache.give_role (Cache.has_role st.cache uid role).2 uid role
        else Cache.remove_role (Cache.has_role st.cache uid role).2 uid role).1 = .ok ()) →
      (Hybrid.has_role st uid role).1 = .ok hr
      ∧ (hr = true → role.to_str ∈ (Hybrid.has_role st uid role).2.cache.roleSets uid)
      ∧ (hr = false → role.to_str ∉ (Hybrid.has_role st uid role).2.cache.roleSets uid))
    ∧ (∀ (st : HybridState) (q : BanQuery) (uid : Nat) (now : Int),
      ((Hybrid.get_ban st q).2.cache.kv = st.cache.kv
        ∧ (Hybrid.get_ban st q).2.cache.roleSets = st.cache.roleSets)
      ∧ ((Hybrid.is_banned st q now).2.cache.kv = st.cache.kv
        ∧ (Hybrid.is_banned st q now).2.cache.roleSets = st.cache.roleSets)
      ∧ ((Hybrid.get_mute st uid).2.cache.kv = st.cache.kv
        ∧ (Hybrid.get_mute st uid).2.cache.roleSets = st.cache.roleSets)
      ∧ ((Hybrid.is_muted st uid now).2.cache.kv = st.cache.kv
        ∧ (Hybrid.is_muted st uid now).2.cache.roleSets = st.cache.roleSets)) := by
  refine ⟨?_, ?_, ?_, ?_, ?_⟩
  · intro st name uid e h1 h2 h3
    rcases hC : Cache.user_id_for st.cache name with ⟨rc, c⟩
    have hrc : rc = .error e := by rw [← h1, hC]
    have h3c : (Cache.set_combination c name uid).1 = .ok () := by
      rw [hC] at h3
      exact h3
    rcases hW : Cache.set_combination c name uid with ⟨rw2, c2⟩
    have hrw : rw2 = .ok () := by rw [← h3c, hW]
    have hkv := cache_set_combination_ok c name uid h3c
    rw [hW] at hkv
    simp [Hybrid.user_id_for, hC, hrc, h2, hW, hrw, resultAnd]
    exact hkv
  · intro st uid name e h1 h2 h3
    rcases hC : Cache.username_for st.cache uid with ⟨rc, c⟩
    have hrc : rc = .error e := by rw [← h1, hC]
    have h3c : (Cache.set_combination c name uid).1 = .ok () := by
      rw [hC] at h3
      exact h3
    rcases hW : Cache.set_combination c name uid with ⟨rw2, c2⟩
    have hrw : rw2 = .ok () := by rw [← h3c, hW]
    have hkv := cache_set_combination_ok c name uid h3c
    rw [hW] at hkv
    simp [Hybrid.username_for, hC, hrc, h2, hW, hrw, resultAnd]
    exact hkv
  · intro st uid rs e h1 h2 h3
    rcases hC : Cache.roles_for_user st.cache uid with ⟨rc, c⟩
    have hrc : rc = .error e := by rw [← h1, hC]
    have h3c : (Cache.give_roles c uid rs).1 = .ok () := by
      rw [hC] at h3
      exact h3
    rcases hW : Cache.give_roles c uid rs with ⟨rw2, c2⟩
    have hrw : rw2 = .ok () := by rw [← h3c, hW]
    have hmem := cache_give_roles_mem c uid rs h3c
    rw [hW] at hmem
    simp only at hmem
    constructor
    · simp [Hybrid.roles_for_user, hC, hrc, h2, hW, hrw, map_ok]
    · intro r hr
      simp [Hybrid.roles_for_user, hC, hrc, h2, hW]
      exact hmem r hr
  · intro st uid role e hr h1 h2 h3
    rcases hC : Cache.has_role st.cache uid role with ⟨rc, c⟩
    have hrc : rc = .error e := by rw [← h1, hC]
    cases hr with
    | true =>
      have h3c : (Cache.give_role c uid role).1 = .ok () := by
        rw [hC, if_pos rfl] at h3
        exact h3
      rcases hW : Cache.give_role c uid role with ⟨rw2, c2⟩
      have hrw : rw2 = .ok () := by rw [← h3c, hW]
      have hmem := cache_give_roles_mem c uid [role] h3c
      have hW2 : Cache.give_roles c uid [role] = (rw2, c2) := hW
      rw [hW2] at hmem
      simp only at hmem
      refine ⟨?_, fun _ => ?_, fun hcontra => by simp at hcontra⟩
      · simp [Hybrid.has_role, hC, hrc, h2, hW, hrw, map_ok]
      · simp [Hybrid.has_role, hC, hrc, h2, hW]
        exact hmem role (by simp)
    | false =>
      have h3c : (Cache.remove_role c uid role).1 = .ok () := by
        rw [hC, if_neg (by simp)] at h3
        exact h3
      rcases hW : Cache.remove_role c uid role with ⟨rw2, c2⟩
      have hrw : rw2 = .ok () := by rw [← h3c, hW]
      have hmem := cache_remove_role_not_mem c uid role h3c
      rw [hW] at hmem
      simp only at hmem
      refine ⟨?_, fun hcontra => by simp at hcontra, fun _ => ?_⟩
      · simp [Hybrid.has_role, hC, hrc, h2, hW, hrw, map_ok]
      · simp [Hybrid.has_role, hC, hrc, h2, hW]
        exact hmem
  · intro st q uid now
    refine ⟨?_, ?_, ?_, ?_⟩
    · rcases hC : Cache.get_ban st.cache q with ⟨rc, c⟩
      have hc : c = st.cache.step := by
        have h0 := cache_get_ban_snd st.cache q
        rw [hC] at h0
        exact h0
      rcases hP : Persistent.get_ban st.persistent q with ⟨rp, p⟩
      cases rc <;> simp [Hybrid.get_ban, hC, hP, hc, RedisState.step]
    · rcases hC : Cache.is_banned st.cache q now with ⟨rc, c⟩
      have hc : c = st.cache.step := by
        have h0 := cache_is_banned_snd st.cache q now
        rw [hC] at h0
        exact h0
      rcases hP : Persistent.is_banned st.persistent q now with ⟨rp, p⟩
      cases rc <;> simp [Hybrid.is_banned, hC, hP, hc, RedisState.step]
    · rcases hC : Cache.get_mute st.cache uid with ⟨rc, c⟩
      have hc : c = st.cache.step := by
        have h0 := cache_get_mute_snd st.cache uid
        rw [hC] at h0
        exact h0
      rcases hP : Persistent.get_mute st.persistent uid with ⟨rp, p⟩
      cases rc <;> simp [Hybrid.get_mute, hC, hP, hc, RedisState.step]
    · rcases hC : Cache.is_muted st.cache uid now with ⟨rc, c⟩
      have hc : c = st.cache.step := by
        have h0 := cache_is_muted_snd st.cache uid now
        rw [hC] at h0
        exact h0
      rcases hP : Persistent.is_muted st.persistent uid now with ⟨rp, p⟩
      cases rc <;> simp [Hybrid.is_muted, hC, hP, hc, RedisState.step]

/-- Witness for C3 at a concrete input: with the cache's first command
failing, `Hybrid::user_id_for` recovers `3` from the persistent tier and
repopulates the cache key. -/
theorem claim3_read_repair_asymmetry_witness :
    (Hybrid.user_id_for ⟨redisFirstFault, mysqlUser3⟩ "mrmouton").1 = .ok (some 3)
    ∧ (Hybrid.user_id_for ⟨redisFirstFault, mysqlUser3⟩ "mrmouton").2.cache.kv
        (.userIdKey "mrmouton") = some (.nat 3) :=
  have h := claim3_read_repair_asymmetry.1 ⟨redisFirstFault, mysqlUser3⟩ "mrmouton" 3
    (.redisError .transport) (by rfl) (by rfl) (by rfl)
  ⟨h.1, h.2.1⟩

/-- C4 counterexample: for the mute `{user_id := 7, duration := 2^63,
initiated_at := 0}` evaluated at instant 1, the code's `active()` is `false`
(the `u64 → i64` conversion fails for `2^63` and the default duration `0` is
used) while the claim's `now < t + d` is true, so the claimed biconditional
fails at this input. -/
theorem claim4_activity_law_cex :
    ¬ (((Mute.mk 7 (2 ^ 63) 0).active 1 = true) ↔ ((1 : Int) < 0 + ((2 ^ 63 : Nat) : Int))) := by
  decide

/-- C4 (amended): for every `Mute` whose duration is at most `i64::MAX` ns,
`active()` is true iff evaluated strictly before `initiated_at + duration`,
and false at or after; for a duration above `i64::MAX` the conversion
defaults to 0, so `active()` is true iff evaluated strictly before
`initiated_at`; for every `Ban` with `duration = None`, `active()` is always
true. -/
theorem claim4_activity_law_amended :
    ∀ (m : Mute) (now : Int),
      (m.duration ≤ i64Max →
        ((m.active now = true) ↔ now < m.initiated_at + (m.duration : Int)))
      ∧ (i64Max < m.duration →
        ((m.active now = true) ↔ now < m.initiated_at))
      ∧ (∀ (b : Ban), b.duration = none → b.active now = true) := by
  intro m now
  refine ⟨fun h => ?_, fun h => ?_, fun b hb => ?_⟩
  · simp [Mute.active, u64TryIntoI64OrDefault, h]
  · have h2 : ¬ (m.duration ≤ i64Max) := not_le.mpr h
    simp [Mute.active, u64TryIntoI64OrDefault, h2]
  · simp [Ban.active, Ban.active_for, hb]

/-- Witness for C4 at concrete inputs: `mute7` (50 ns at 0) is active at 10,
and a permanent ban is active arbitrarily late. -/
theorem claim4_activity_law_witness :
    mute7.active 10 = true ∧ banPerm.active 1000000000000 = true :=
  ⟨((claim4_activity_law_amended mute7 10).1 (by decide)).mpr (by decide),
   (claim4_activity_law_amended mute7 10).2.2 banPerm rfl⟩

/-- C5: `Persistent::get_ban`, `Persistent::get_mute` and
`Persistent::roles_for_user` translate the store's not-found into `Ok(None)`
/ `Ok(vec![])` for a user with no matching row, and never surface diesel's
`NotFound` as an error. -/
theorem claim5_notfound_normalization :
    ∀ (st : MysqlState) (uid : Nat),
      (st.faults st.tick = false →
        ((st.bans.find? (fun b => b.user_id = uid) = none →
            (Persistent.get_ban st (.id uid)).1 = .ok none)
         ∧ (st.mutes.find? (fun m => m.user_id = uid) = none →
            (Persistent.get_mute st uid).1 = .ok none)
         ∧ (st.roles.find? (fun e => e.user_id = uid) = none →
            (Persistent.roles_for_user st uid).1 = .ok [])))
      ∧ (∀ q, (Persistent.get_ban st q).1 ≠ .error (.dieselError .notFound))
      ∧ (Persistent.get_mute st uid).1 ≠ .error (.dieselError .notFound)
      ∧ (Persistent.roles_for_user st uid).1 ≠ .error (.dieselError .notFound) := by
  intro st uid
  refine ⟨fun hf => ⟨fun hb => ?_, fun hm => ?_, fun hr => ?_⟩, fun q => ?_, ?_, ?_⟩
  · simp [Persistent.get_ban, qFirstBanById, MysqlState.failNow, hf, hb]
  · simp [Persistent.get_mute, qFirstMuteById, MysqlState.failNow, hf, hm]
  · simp [Persistent.roles_for_user, qFirstRoleEntry, MysqlState.failNow, hf, hr,
      RoleEntry.default, RoleEntry.toRoles]
  · by_cases hf : st.faults st.tick = true
    · cases q <;> simp [Persistent.get_ban, qFirstBanById, qFirstBanByIp,
        MysqlState.failNow, hf]
    · cases q with
      | address a =>
        rcases hfind : st.bans.find? (fun b => b.ip = some a) with _ | b <;>
          simp [Persistent.get_ban, qFirstBanByIp, MysqlState.failNow, hf, hfind]
      | id u =>
        rcases hfind : st.bans.find? (fun b => b.user_id = u) with _ | b <;>
          simp [Persistent.get_ban, qFirstBanById, MysqlState.failNow, hf, hfind]
  · by_cases hf : st.faults st.tick = true
    · simp [Persistent.get_mute, qFirstMuteById, MysqlState.failNow, hf]
    · rcases hfind : st.mutes.find? (fun m => m.user_id = uid) with _ | m <;>
        simp [Persistent.get_mute, qFirstMuteById, MysqlState.failNow, hf, hfind]
  · by_cases hf : st.faults st.tick = true
    · simp [Persistent.roles_for_user, qFirstRoleEntry, MysqlState.failNow, hf]
    · rcases hfind : st.roles.find? (fun e => e.user_id = uid) with _ | e <;>
        simp [Persistent.roles_for_user, qFirstRoleEntry, MysqlState.failNow, hf, hfind]

/-- Witness for C5 at a concrete input: an empty database, user 4. -/
theorem claim5_notfound_normalization_witness :
    (Persistent.get_ban mysql0 (.id 4)).1 = .ok none
    ∧ (Persistent.get_mute mysql0 4).1 = .ok none
    ∧ (Persistent.roles_for_user mysql0 4).1 = .ok [] :=
  have h := (claim5_notfound_normalization mysql0 4).1 (by rfl)
  ⟨h.1 (by rfl), h.2.1 (by rfl), h.2.2 (by rfl)⟩

/-- C6 evaluated at the failing input: on an empty persistent store,
`Persistent::username_for 1` and `Persistent::has_role 1 Moderator` propagate
diesel's `NotFound` as an error instead of the claimed `Ok(None)` /
`Ok(false)`; their siblings `roles_for_user` and `user_id_for` do normalize,
showing the intended policy. -/
theorem claim6_notfound_not_normalized :
    (Persistent.username_for mysql0 1).1 = .error (.dieselError .notFound)
    ∧ (Persistent.has_role mysql0 1 Role.moderator).1 = .error (.dieselError .notFound)
    ∧ (Persistent.roles_for_user mysql0 1).1 = .ok []
    ∧ (Persistent.user_id_for mysql0 "nobody").1 = .ok none := by
  refine ⟨rfl, rfl, rfl, rfl⟩

/-- C7 evaluated at the failing input: with a mute already stored for user
7, `Persistent::register_mute` fails with a duplicate-key error (plain
`insert_into`, no replace) instead of upserting and returning the previous
record, and `Cache::register_mute` overwrites the key via plain `SET` but
errors decoding the `+OK` reply instead of returning the previous record;
for contrast, `Persistent::register_ban` does upsert and return the old row. -/
theorem claim7_register_mute_not_upsert :
    (Persistent.register_mute mysqlMute7 (Mute.mk 7 100 10)).1
      = .error (.dieselError .uniqueViolation)
    ∧ (Persistent.register_mute mysqlMute7 (Mute.mk 7 100 10)).2.mutes = [mute7]
    ∧ (Cache.register_mute redisMute7 (Mute.mk 7 100 10)).1
      = .error (.redisError .typeError)
    ∧ (Cache.register_mute redisMute7 (Mute.mk 7 100 10)).2.kv (.muted 7)
      = some (.mute (Mute.mk 7 100 10))
    ∧ (Persistent.register_ban { mysql0 with bans := [ban1] } (Ban.mk 1 (some 9) 3 none)).1
      = .ok (some ban1)
    ∧ (Persistent.register_ban { mysql0 with bans := [ban1] } (Ban.mk 1 (some 9) 3 none)).2.bans
      = [Ban.mk 1 (some 9) 3 none] := by
  refine ⟨rfl, rfl, rfl, rfl, rfl, rfl⟩

lemma mem_toRoles (e : RoleEntry) (r : Role) :
    r ∈ e.toRoles ↔ e.has_role r = true := by
  cases r <;> simp [RoleEntry.toRoles, RoleEntry.has_role]

lemma has_role_setColumn_ne (e : RoleEntry) (r1 r2 : Role) (v : Bool) (h : r1 ≠ r2) :
    (e.setColumn r2 v).has_role r1 = e.has_role r1 := by
  cases r1 <;> cases r2 <;> simp_all [RoleEntry.setColumn, RoleEntry.has_role]

lemma setColumn_user_id (e : RoleEntry) (r : Role) (v : Bool) :
    (e.setColumn r v).user_id = e.user_id := by
  cases r <;> rfl

lemma foldl_setColumn_user_id (cols : List Role) (v : Bool) (e : RoleEntry) :
    (cols.foldl (fun e2 r => e2.setColumn r v) e).user_id = e.user_id := by
  induction cols generalizing e with
  | nil => rfl
  | cons c cs ih => simp [List.foldl, ih, setColumn_user_id]

lemma comp_pred_setColumn (uid : Nat) (r2 : Role) (v : Bool) :
    ((fun e : RoleEntry => decide (e.user_id = uid)) ∘
      fun e : RoleEntry => if e.user_id = uid then e.setColumn r2 v else e)
      = (fun e : RoleEntry => decide (e.user_id = uid)) := by
  funext e2
  by_cases he : e2.user_id = uid <;> simp [Function.comp, he, setColumn_user_id]

/-- C8: granting a role never removes another role, in either tier (cache
`SADD` preserves existing set members; the persistent conditional upsert
updates only the granted role's column, so membership in `roles_for_user` of
any other role is preserved); and in the concrete scenario of granting
Moderator then Vip to a fresh user, both tiers' `roles_for_user` return
exactly `[Moderator, Vip]`. -/
theorem claim8_role_grant_frame :
    (∀ (st : RedisState) (uid : Nat) (r2 : Role) (s : String),
      s ∈ st.roleSets uid → s ∈ (Cache.give_role st uid r2).2.roleSets uid)
    ∧ (∀ (st : MysqlState) (uid : Nat) (r1 r2 : Role) (rs rs2 : List Role),
      r1 ≠ r2 →
      (Persistent.roles_for_user st uid).1 = .ok rs → r1 ∈ rs →
      (Persistent.roles_for_user (Persistent.give_role st uid r2).2 uid).1 = .ok rs2 →
      r1 ∈ rs2)
    ∧ (Cache.roles_for_user
        (Cache.give_role (Cache.give_role redis0 3 .moderator).2 3 .vip).2 3).1
      = .ok [Role.moderator, Role.vip]
    ∧ (Persistent.roles_for_user
        (Persistent.give_role (Persistent.give_role mysql0 3 .moderator).2 3 .vip).2 3).1
      = .ok [Role.moderator, Role.vip] := by
  refine ⟨?_, ?_, by rfl, by rfl⟩
  · intro st uid r2 s hmem
    by_cases hf : st.faults st.tick = true
    · simpa [Cache.give_role, Cache.give_roles, rSadd, RedisState.failNow,
        RedisState.step, hf] using hmem
    · simp [Cache.give_role, Cache.give_roles, rSadd, RedisState.failNow,
        RedisState.step, hf]
      exact mem_setAdd_left _ _ _ hmem
  · intro st uid r1 r2 rs rs2 hne h1 hmem h2
    by_cases hf1 : st.faults st.tick = true
    · simp [Persistent.roles_for_user, qFirstRoleEntry, MysqlState.failNow, hf1] at h1
    · rcases hfind : st.roles.find? (fun e => e.user_id = uid) with _ | e
      · simp [Persistent.roles_for_user, qFirstRoleEntry, MysqlState.failNow, hf1,
          hfind, RoleEntry.default, RoleEntry.toRoles] at h1
        subst h1
        simp at hmem
      · have hrs : rs = e.toRoles := by
          simp [Persistent.roles_for_user, qFirstRoleEntry, MysqlState.failNow, hf1,
            hfind] at h1
          exact h1.symm
        have hpe : e.user_id = uid := by
          simpa using List.find?_some hfind
        have hany : st.roles.any (fun e2 => e2.user_id = uid) = true := by
          apply List.any_eq_true.mpr
          exact ⟨e, List.mem_of_find?_eq_some hfind, by simpa using hpe⟩
        by_cases hf2 : st.faults (st.tick + 1) = true
        · simp [Persistent.give_role, qGiveRolesStatement, MysqlState.failNow,
            MysqlState.step, hf1, hany, Persistent.roles_for_user, qFirstRoleEntry,
            hf2] at h2
        · simp [Persistent.give_role, qGiveRolesStatement, MysqlState.failNow,
            MysqlState.step, hf1, hany, Persistent.roles_for_user, qFirstRoleEntry,
            hf2, comp_pred_setColumn, hfind, hpe] at h2
          rw [← h2, mem_toRoles, has_role_setColumn_ne e r1 r2 true hne]
          rw [hrs, mem_toRoles] at hmem
          exact hmem

/-- Witness for C8 at concrete inputs: user 3's existing `bot` member
survives a Vip grant in the cache, and the persistent moderator flag of
`mysqlUser3` survives a Vip grant. -/
theorem claim8_role_grant_frame_witness :
    "bot" ∈ (Cache.give_role redisBot3 3 .vip).2.roleSets 3
    ∧ Role.moderator ∈ [Role.moderator, Role.vip] :=
  ⟨claim8_role_grant_frame.1 redisBot3 3 .vip "bot" (by decide),
   claim8_role_grant_frame.2.1 mysqlUser3 3 .moderator .vip [.moderator]
     [.moderator, .vip] (by decide) (by rfl) (by decide) (by rfl)⟩

/-- C9: every `Role` maps to its unique lowercase identifier and parsing it
back yields the same role (`to_str` is injective and lands in the six-string
vocabulary); and reconstituting a role list from cache members silently drops
a member that parses to no role (["moderator", "gnome"] yields exactly
`[Moderator]` with no error). -/
theorem claim9_role_string_encoding :
    (∀ r : Role, Role.from_str (Role.to_str r) = some r)
    ∧ (∀ r1 r2 : Role, Role.to_str r1 = Role.to_str r2 → r1 = r2)
    ∧ (∀ r : Role, Role.to_str r ∈
        ["administrator", "moderator", "vip", "protected", "subscriber", "bot"])
    ∧ (Cache.roles_for_user redisGnome 9).1 = .ok [Role.moderator] := by
  refine ⟨?_, ?_, ?_, by rfl⟩
  · intro r
    cases r <;> rfl
  · intro r1 r2 h
    cases r1 <;> cases r2 <;> first | rfl | (exact absurd h (by decide))
  · intro r
    cases r <;> decide

/-- Witness for C9 at concrete inputs. -/
theorem claim9_role_string_encoding_witness :
    Role.from_str (Role.to_str .bot) = some .bot ∧ Role.vip = Role.vip :=
  ⟨claim9_role_string_encoding.1 .bot, claim9_role_string_encoding.2.1 .vip .vip rfl⟩

/-- C10: when the cache-side purge succeeds, `Hybrid::purge_roles` returns
exactly the persistent tier's result — the role list the persistent tier read
immediately before deleting its row — discarding the cache tier's list; and
the hybrid post-state is the pair of the two tier purges' post-states. -/
theorem claim10_purge_roles_result :
    ∀ (st : HybridState) (uid : Nat),
      (∀ v, (Cache.purge_roles st.cache uid).1 = .ok v →
        (Hybrid.purge_roles st uid).1 = (Persistent.purge_roles st.persistent uid).1)
      ∧ (∀ rs, (Persistent.purge_roles st.persistent uid).1 = .ok rs →
        (Persistent.roles_for_user st.persistent uid).1 = .ok rs)
      ∧ (Hybrid.purge_roles st uid).2
          = ⟨(Cache.purge_roles st.cache uid).2,
             (Persistent.purge_roles st.persistent uid).2⟩ := by
  intro st uid
  refine ⟨?_, ?_, ?_⟩
  · intro v hv
    exact (writeContract_mk (Cache.purge_roles st.cache uid)
      (Persistent.purge_roles st.persistent uid)).2.2.1 v hv
  · intro rs h
    unfold Persistent.purge_roles at h
    rcases hR : Persistent.roles_for_user st.persistent uid with ⟨r1, st1⟩
    rw [hR] at h
    cases r1 with
    | error e => simp at h
    | ok rs2 =>
      simp only [map_error, map_ok] at h
      rcases hD : (qDeleteRoleRow st1 uid).1 with e | n
      · rw [hD, map_error] at h
        simp at h
      · rw [hD, map_ok] at h
        simp at h
        simp [h]
  · exact (writeContract_mk (Cache.purge_roles st.cache uid)
      (Persistent.purge_roles st.persistent uid)).2.2.2

/-- Witness for C10 at a concrete input: cache holds `bot` for user 3, the
persistent tier holds `moderator`; the hybrid purge returns the persistent
list. -/
theorem claim10_purge_roles_result_witness :
    (Hybrid.purge_roles ⟨redisBot3, mysqlUser3⟩ 3).1
      = (Persistent.purge_roles mysqlUser3 3).1
    ∧ (Persistent.roles_for_user mysqlUser3 3).1 = .ok [Role.moderator] :=
  ⟨(claim10_purge_roles_result ⟨redisBot3, mysqlUser3⟩ 3).1 [Role.bot] (by rfl),
   (claim10_purge_roles_result ⟨redisBot3, mysqlUser3⟩ 3).2.1 [Role.moderator] (by rfl)⟩
